import Mathlib

/-!
Verification of the semantic-metrics modeling assistant.

This file is a shallow embedding of the core of the repository
`semantic_metrics` (files `trust_scoring.py`, `server.py`, `database.py`)
into Lean 4, together with theorems settling the frozen claims about it.

Modelling conventions:
* Python floats are modelled by `ℚ` (all constants in the source are exact
  decimals, so rational arithmetic matches the intended real-number
  semantics; binary floating-point representation error is abstracted away).
* Timestamps are modelled at day granularity as `Int` (epoch day); the
  source only ever uses `(datetime.now() - t).days`, which for whole-day
  timestamps equals integer subtraction.  The single call-time clock value
  is passed explicitly as a `now : Int` parameter.
* Python dicts used as records become structures; the in-memory stores
  (`METRICS_STORE`, `LINEAGE_GRAPH`, the SQLite `metrics` table) become
  insertion-ordered association lists.
* Fallible operations return a result value paired with the (possibly
  unchanged) state.
-/

namespace SemanticMetrics

/-- A metric record, as built by `define_metric` in `server.py` and consumed
by `trust_scoring.py`.  Field names follow the Python dict keys. -/
structure Metric where
  name : String
  id : String
  description : String
  calculation : String
  owner : String
  tags : List String
  data_source : String
  created_at : Int
  updated_at : Int
  dependencies : List String
  usage_count : Nat
  test_count : Nat
  documentation_complete : Bool
  deriving DecidableEq

/-- A row of the `metric_history` table (see `database.py`); the scoring code
only reads `changed_at`. -/
structure ChangeRecord where
  metric_id : String
  field_name : String
  old_value : String
  new_value : String
  changed_by : String
  changed_at : Int
  deriving DecidableEq

/-- The `breakdown` mapping returned by `calculate_trust_score_enhanced`. -/
structure Breakdown where
  freshness : ℚ
  tests : ℚ
  usage : ℚ
  documentation : ℚ
  ownership : ℚ
  deriving DecidableEq

/-- The `multipliers` mapping returned by `calculate_trust_score_enhanced`. -/
structure Multipliers where
  recent_activity : ℚ
  consistency : ℚ
  time_decay : ℚ
  deriving DecidableEq

/-- The dict returned by `calculate_trust_score_enhanced`. -/
structure ScoreResult where
  score : ℚ
  trend : String
  breakdown : Breakdown
  multipliers : Multipliers
  recommendations : List String
  deriving DecidableEq

/-- `check_freshness` from `trust_scoring.py` (0-20 raw points, by age in
days of `updated_at`). -/
def check_freshness (now : Int) (metric : Metric) : ℚ :=
  let days_old := now - metric.updated_at
  if days_old ≤ 7 then 20
  else if days_old ≤ 30 then 15
  else if days_old ≤ 90 then 10
  else if days_old ≤ 180 then 5
  else 0

/-- `check_test_coverage` from `trust_scoring.py` (0-25 raw points). -/
def check_test_coverage (metric : Metric) : ℚ :=
  if metric.test_count ≥ 5 then 25
  else if metric.test_count ≥ 3 then 20
  else if metric.test_count ≥ 1 then 15
  else 0

/-- `check_usage` from `trust_scoring.py` (0-20 raw points). -/
def check_usage (metric : Metric) : ℚ :=
  if metric.usage_count ≥ 50 then 20
  else if metric.usage_count ≥ 20 then 15
  else if metric.usage_count ≥ 10 then 10
  else if metric.usage_count ≥ 1 then 5
  else 0

/-- `check_documentation` from `trust_scoring.py` (0-20 raw points: +5 for a
description longer than 20 characters, +5 for a data source, +5 for tags,
+5 for dependencies). -/
def check_documentation (metric : Metric) : ℚ :=
  (if metric.description ≠ "" ∧ metric.description.length > 20 then 5 else 0) +
  (if metric.data_source ≠ "" then 5 else 0) +
  (if metric.tags ≠ [] ∧ metric.tags.length > 0 then 5 else 0) +
  (if metric.dependencies ≠ [] then 5 else 0)

/-- `check_ownership` from `trust_scoring.py` (15 raw points when an owner
other than the `"Unassigned"` sentinel is set). -/
def check_ownership (metric : Metric) : ℚ :=
  if metric.owner ≠ "" ∧ metric.owner ≠ "Unassigned" then 15 else 0

/-- The recent-activity block of `calculate_trust_score_enhanced`
(`trust_scoring.py` lines 44-53). -/
def recent_activity_bonus (days_since_update : Int) : ℚ :=
  if days_since_update ≤ 7 then 10
  else if days_since_update ≤ 30 then 5
  else 0

/-- Consecutive differences `dates[i] - dates[i+1]` as in the gap list of
the consistency block of `calculate_trust_score_enhanced`. -/
def gaps : List Int → List Int
  | a :: b :: rest => (a - b) :: gaps (b :: rest)
  | _ => []

/-- The consistency-bonus block of `calculate_trust_score_enhanced`
(`trust_scoring.py` lines 55-68): +5 when at least 5 history records exist
and every day-gap among the 10 most recent `changed_at` values is ≤ 30. -/
def consistency_bonus (history : List ChangeRecord) : ℚ :=
  if history ≠ [] ∧ history.length ≥ 5 then
    let update_dates := (history.take 10).map (·.changed_at)
    if update_dates.length > 1 then
      if (gaps update_dates).all (fun g => g ≤ 30) then 5 else 0
    else 0
  else 0

/-- The time-decay block of `calculate_trust_score_enhanced`
(`trust_scoring.py` lines 70-78): the (positive) amount subtracted from the
score, or 0 when the dual age/staleness condition does not hold. -/
def time_decay_penalty (days_since_creation days_since_update : Int) : ℚ :=
  if days_since_creation > 90 ∧ days_since_update > 30 then
    min 25 ((days_since_update : ℚ) / 30 * 5)
  else 0

/-- Python's `round` to the nearest integer with ties to even, on `ℚ`. -/
def roundHalfEvenInt (q : ℚ) : Int :=
  if q - (⌊q⌋ : ℚ) < 1/2 then ⌊q⌋
  else if 1/2 < q - (⌊q⌋ : ℚ) then ⌊q⌋ + 1
  else if ⌊q⌋ % 2 = 0 then ⌊q⌋ else ⌊q⌋ + 1

/-- Python's `round(x, 1)` on `ℚ`. -/
def round1 (q : ℚ) : ℚ := (roundHalfEvenInt (q * 10) : ℚ) / 10

/-- `calculate_trend` from `trust_scoring.py`: `"↗️"` (improving), `"→"`
(stable) or `"↘️"` (degrading) from the density of recent history. -/
def calculate_trend (now : Int) (history : List ChangeRecord) : String :=
  if history = [] ∨ history.length < 2 then "→"
  else
    let recent_changes := (history.filter (fun h => now - h.changed_at ≤ 30)).length
    let older_changes :=
      (history.filter (fun h => 30 < now - h.changed_at ∧ now - h.changed_at ≤ 60)).length
    if (recent_changes : Int) > older_changes + 2 then "↗️"
    else if (recent_changes : Int) < (older_changes : Int) - 2 then "↘️"
    else "→"

/-- `get_recommendations` from `trust_scoring.py`: threshold checks appended
in priority order, then the overall banner inserted at position 0.  The
`freshness_score` argument is passed by the source but unused there. -/
def get_recommendations (final_score : ℚ) (metric : Metric)
    (_freshness_score test_score usage_score doc_score ownership_score : ℚ)
    (days_since_update : Int) : List String :=
  let recommendations : List String := []
  let recommendations := recommendations ++
    (if test_score < 15 then
      [if metric.test_count = 0 then
        "🔴 CRITICAL: Add validation tests to verify metric accuracy"
      else
        "🟡 Add more tests for comprehensive coverage (target: 3+ tests)"]
    else [])
  let recommendations := recommendations ++
    (if usage_score < 10 then
      [if metric.usage_count = 0 then
        "💡 New metric - promote to stakeholders to increase adoption"
      else
        "💡 Low usage - ensure metric is discoverable and well-documented"]
    else [])
  let recommendations := recommendations ++
    (if days_since_update > 90 then
      ["⚠️ Stale metric - review and update to maintain trust"]
    else if days_since_update > 30 then
      ["ℹ️ Consider reviewing - metrics should be validated regularly"]
    else [])
  let recommendations := recommendations ++
    (if doc_score < 10 then
      let missing : List String :=
        (if metric.data_source = "" then ["data source"] else []) ++
        (if metric.tags = [] ∨ metric.tags.length = 0 then ["tags"] else []) ++
        (if metric.description = "" ∨ metric.description.length < 20 then
          ["detailed description"] else [])
      if missing ≠ [] then
        ["📝 Improve documentation: Add " ++ String.intercalate ", " missing]
      else []
    else [])
  let recommendations := recommendations ++
    (if ownership_score < 10 then
      ["👤 Assign an owner for accountability and governance"]
    else [])
  if final_score ≥ 80 then
    "✅ Excellent - This metric is production-ready" :: recommendations
  else if final_score < 50 then
    "⚠️ Action required - Address critical issues before using in production" :: recommendations
  else
    recommendations

/-- `calculate_trust_score_enhanced` from `trust_scoring.py`: weighted base
score, additive multipliers, clamp to [0, 100] and round to one decimal.
Python's `history=None` default is modelled by the empty list. -/
def calculate_trust_score_enhanced (now : Int) (metric : Metric)
    (history : List ChangeRecord) : ScoreResult :=
  let freshness_score := check_freshness now metric * (15/20)
  let test_score := check_test_coverage metric * (35/25)
  let usage_score := check_usage metric * 1
  let doc_score := check_documentation metric * (15/20)
  let ownership_score := check_ownership metric * 1
  let base_score := freshness_score + test_score + usage_score + doc_score + ownership_score
  let days_since_update := now - metric.updated_at
  let recent_activity := recent_activity_bonus days_since_update
  let consistency := consistency_bonus history
  let days_since_creation := now - metric.created_at
  let decay := time_decay_penalty days_since_creation days_since_update
  let final_score := base_score + recent_activity + consistency - decay
  let final_score := max 0 (min 100 final_score)
  let trend := if history = [] then "→" else calculate_trend now history
  let recommendations := get_recommendations final_score metric freshness_score
    test_score usage_score doc_score ownership_score days_since_update
  { score := round1 final_score
    trend := trend
    breakdown :=
      { freshness := round1 freshness_score
        tests := round1 test_score
        usage := round1 usage_score
        documentation := round1 doc_score
        ownership := round1 ownership_score }
    multipliers :=
      { recent_activity := recent_activity
        consistency := consistency
        time_decay := -decay }
    recommendations := recommendations }

/-- The eight intensity glyphs used by `generate_sparkline`. -/
def sparkline_chars : List Char := ['▁', '▂', '▃', '▄', '▅', '▆', '▇', '█']

/-- `generate_sparkline` from `trust_scoring.py`, as a list of glyphs
(a Python string is its list of characters). -/
def generate_sparkline (scores : List ℚ) : List Char :=
  if scores = [] ∨ scores.length < 2 then ['─']
  else
    let min_score := scores.foldl min (scores.headD 0)
    let max_score := scores.foldl max (scores.headD 0)
    if max_score = min_score then List.replicate scores.length '▄'
    else
      scores.map (fun score =>
        let normalized := (score - min_score) / (max_score - min_score)
        let char_index := min 7 (⌊normalized * 8⌋.toNat)
        sparkline_chars.getD char_index '▁')

/-! ### server.py: stores, similarity, lineage, cycle detection -/

/-- Lookup in the insertion-ordered association list modelling
`METRICS_STORE` (a Python dict keyed by metric id). -/
def lookupStore (store : List (String × Metric)) (id : String) : Option Metric :=
  (store.find? (fun p => p.1 = id)).map (·.2)

/-- Python `str.lower()`, modelled character-wise (agrees with CPython on
the ASCII strings the system manipulates). -/
def lowerString (s : String) : String := String.mk (s.toList.map Char.toLower)

/-- Recursion core of `splitWords`: `acc` holds the current in-progress word
reversed. -/
def splitWordsAux : List Char → List Char → List String
  | [], acc => if acc = [] then [] else [String.mk acc.reverse]
  | c :: cs, acc =>
    if c.isWhitespace then
      (if acc = [] then [] else [String.mk acc.reverse]) ++ splitWordsAux cs []
    else splitWordsAux cs (c :: acc)

/-- Python `str.split()`: split on whitespace runs, discarding empty
pieces. -/
def splitWords (s : String) : List String := splitWordsAux s.toList []

/-- `set(s.lower().split())`: the lower-cased word set of a string. -/
def wordSet (s : String) : Finset String := (splitWords (lowerString s)).toFinset

/-- `_calculate_similarity` from `server.py`: weighted sum of description
word-set overlap (0.4), tag-set overlap (0.3) and data-source equality
(0.3).  (The leading underscore of the Python name is dropped.) -/
def calculate_similarity (m1 m2 : Metric) : ℚ :=
  let score : ℚ := 0
  let desc1_words := wordSet m1.description
  let desc2_words := wordSet m2.description
  let score :=
    if desc1_words ≠ ∅ ∧ desc2_words ≠ ∅ then
      score + ((desc1_words ∩ desc2_words).card : ℚ) /
        ((desc1_words ∪ desc2_words).card) * 0.4
    else score
  let tags1 := m1.tags.toFinset
  let tags2 := m2.tags.toFinset
  let score :=
    if tags1 ≠ ∅ ∨ tags2 ≠ ∅ then
      score + ((tags1 ∩ tags2).card : ℚ) /
        (max ((tags1 ∪ tags2).card) 1) * 0.3
    else score
  if m1.data_source = m2.data_source ∧ m1.data_source ≠ "" then score + 0.3
  else score

/-- Recursion core of `_has_circular_dependency` from `server.py`: depth-first
search carrying the (copy-on-branch) visited set.  The Python recursion depth
is bounded by the store size plus two because `visited` gains a distinct
element per level, all drawn from the start id and the store keys; the `fuel`
argument makes that bound explicit and is never exhausted when the wrapper
below supplies `store.length + 2`. -/
def has_circular_dependency_aux (store : List (String × Metric)) :
    Nat → String → List String → Bool
  | 0, _, _ => false
  | fuel + 1, metric_id, visited =>
    if metric_id ∈ visited then true
    else
      match lookupStore store metric_id with
      | none => false
      | some m =>
        m.dependencies.any (fun dep =>
          (lookupStore store dep).isSome &&
          has_circular_dependency_aux store fuel dep (metric_id :: visited))

/-- `_has_circular_dependency(metric_id)` from `server.py`, started with the
empty visited set.  (The leading underscore of the Python name is dropped.) -/
def has_circular_dependency (store : List (String × Metric))
    (metric_id : String) : Bool :=
  has_circular_dependency_aux store (store.length + 2) metric_id []

/-- The downstream computation of `visualize_lineage` (`server.py` line 321):
`[m for m, deps in LINEAGE_GRAPH.items() if metric_id in deps]`, where
`LINEAGE_GRAPH` maps each dependency reference to the list of metric ids
depending on it. -/
def downstream_viz (lineage : List (String × List String))
    (metric_id : String) : List String :=
  (lineage.filter (fun p => p.2.contains metric_id)).map (·.1)

/-- The downstream scan of `generate_mermaid_diagram` (`server.py` lines
1111-1120): metric ids whose dependency list contains the target id or the
target metric's display name.  Reached only when the target id is present
in the store (the tool returns "not found" earlier otherwise). -/
def downstream_mermaid (store : List (String × Metric))
    (metric_id : String) : List String :=
  match lookupStore store metric_id with
  | none => []
  | some metric =>
    (store.filter (fun p =>
      p.2.dependencies.contains metric_id ||
      p.2.dependencies.contains metric.name)).map (·.1)

/-! ### server.py: dependency extraction and metric creation -/

/-- Python regex `\w`: a word character (letter, digit or underscore). -/
def isWordChar (c : Char) : Bool := c.isAlphanum || c = '_'

/-- A character matched by the class `[a-z_]` of the dependency pattern. -/
def isDepChar (c : Char) : Bool := c.isLower || c = '_'

/-- Try to match the regex `\b([a-z_]+\.[a-z_]+)\b` at the head of the
character list (the boundary before the match is checked by the caller);
on success return the matched token and the rest of the input. -/
def matchDep (l : List Char) : Option (String × List Char) :=
  let (r1, rest1) := l.span isDepChar
  if r1 = [] then none
  else
    match rest1 with
    | '.' :: rest2 =>
      let (r2, rest3) := rest2.span isDepChar
      if r2 = [] then none
      else
        match rest3 with
        | [] => some (String.mk (r1 ++ '.' :: r2), [])
        | d :: _ =>
          if isWordChar d then none
          else some (String.mk (r1 ++ '.' :: r2), rest3)
    | _ => none

/-- Left-to-right non-overlapping scan of `re.findall` for the dependency
pattern; `prevIsWord` records whether the previous character was a word
character (for the leading `\b`).  Each step consumes at least one
character, so `fuel = length + 1` suffices. -/
def scanDeps (store_fuel : Nat) (prevIsWord : Bool) (l : List Char) : List String :=
  match store_fuel, l with
  | 0, _ => []
  | _, [] => []
  | fuel + 1, c :: rest =>
    if prevIsWord then scanDeps fuel (isWordChar c) rest
    else
      match matchDep (c :: rest) with
      | some (tok, rest1) => tok :: scanDeps fuel true rest1
      | none => scanDeps fuel (isWordChar c) rest

/-- `_extract_dependencies` from `server.py`: all `schema.table`-shaped
tokens of the lower-cased calculation, deduplicated (Python's `list(set(m))`
has unspecified order; deduplication order is a determinization). -/
def extract_dependencies (calculation : String) : List String :=
  let cs := (lowerString calculation).toList
  (scanDeps (cs.length + 1) false cs).dedup

/-- The metric id derivation used throughout `server.py`:
`name.lower().replace(" ", "_")` (single-character replacement, modelled
character-wise). -/
def metric_id_of (name : String) : String :=
  String.mk ((lowerString name).toList.map (fun c => if c = ' ' then '_' else c))

/-- `LINEAGE_GRAPH[dep].append(metric_id)` on the association-list model of
the `defaultdict(list)`: append to an existing key's list, or add the key
at the end. -/
def graph_append (g : List (String × List String)) (dep metric_id : String) :
    List (String × List String) :=
  match g with
  | [] => [(dep, [metric_id])]
  | (k, v) :: rest =>
    if k = dep then (k, v ++ [metric_id]) :: rest
    else (k, v) :: graph_append rest dep metric_id

/-- The module-level mutable state of `server.py`: `METRICS_STORE` and
`LINEAGE_GRAPH`. -/
structure ServerState where
  metricsStore : List (String × Metric)
  lineageGraph : List (String × List String)
  deriving DecidableEq

/-- Outcome of `define_metric`, abstracting the three report strings the
tool can return. -/
inductive DefineResult
  | missingFields
  | alreadyExists
  | created
  deriving DecidableEq

/-- `define_metric` from `server.py` (the report-string formatting and the
initial trust-score display are presentation and are not modelled; they do
not touch the state).  Returns the outcome and the new server state. -/
def define_metric (st : ServerState) (now : Int)
    (name description calculation owner tags data_source : String) :
    DefineResult × ServerState :=
  if name = "" ∨ description = "" ∨ calculation = "" then
    (.missingFields, st)
  else
    let metric_id := metric_id_of name
    if (lookupStore st.metricsStore metric_id).isSome then
      (.alreadyExists, st)
    else
      let dependencies := extract_dependencies calculation
      let metric : Metric :=
        { name := name
          id := metric_id
          description := description
          calculation := calculation
          owner := if owner = "" then "Unassigned" else owner
          tags := if tags = "" then [] else (tags.splitOn ",").map (·.trim)
          data_source := data_source
          created_at := now
          updated_at := now
          dependencies := dependencies
          usage_count := 0
          test_count := 0
          documentation_complete :=
            description ≠ "" && calculation ≠ "" && owner ≠ "" }
      let store1 := st.metricsStore ++ [(metric_id, metric)]
      let graph1 := dependencies.foldl
        (fun g dep => graph_append g dep metric_id) st.lineageGraph
      (.created, { metricsStore := store1, lineageGraph := graph1 })

/-- `MetricsDatabase.create_metric` from `database.py`, on the
association-list model of the `metrics` table: the `INSERT` raises
`IntegrityError` on a duplicate primary key and the method then returns
`False` with the table unchanged; otherwise the row is appended and the
method returns `True`.  (The JSON encoding of `tags`/`dependencies` is a
bijective serialization and is elided.) -/
def create_metric (db : List (String × Metric)) (metric_id : String)
    (metric_data : Metric) : Bool × List (String × Metric) :=
  if (lookupStore db metric_id).isSome then (false, db)
  else (true, db ++ [(metric_id, metric_data)])

/-! ### Concrete fixtures used by witnesses and counterexamples -/

/-- A metric record with the given name, id and dependencies and neutral
remaining fields, used to populate concrete stores. -/
def mkMetric (name id : String) (deps : List String) : Metric :=
  { name := name, id := id, description := "d", calculation := "c",
    owner := "o", tags := [], data_source := "", created_at := 0,
    updated_at := 0, dependencies := deps, usage_count := 0,
    test_count := 0, documentation_complete := true }

/-- The poor-metric scenario of the spec (and of `test_poor_score` in
`tests/test_trust_scoring.py`): empty description, tags, data source and
owner, no tests, no usage, created 200 and updated 100 days before the
evaluation time `now = 200`. -/
def m_poor : Metric :=
  { name := "Poor Metric", id := "poor_metric", description := "",
    calculation := "SELECT *", owner := "", tags := [], data_source := "",
    created_at := 0, updated_at := 100, dependencies := [],
    usage_count := 0, test_count := 0, documentation_complete := false }

/-- A store with a direct self-loop: `a` depends on `a`. -/
def storeSelf : List (String × Metric) := [("a", mkMetric "A" "a" ["a"])]

/-- A store with the 3-node cycle `a → b → c → a`. -/
def storeCycle : List (String × Metric) :=
  [("a", mkMetric "A" "a" ["b"]), ("b", mkMetric "B" "b" ["c"]),
   ("c", mkMetric "C" "c" ["a"])]

/-- An acyclic 3-node store: `a → b`, `a → c`, `b → c`. -/
def storeDag : List (String × Metric) :=
  [("a", mkMetric "A" "a" ["b", "c"]), ("b", mkMetric "B" "b" ["c"]),
   ("c", mkMetric "C" "c" [])]

/-- The server state after defining the metric `"Raw.Users"` (id
`raw.users`) and then the metric `"Daily Count"` (id `daily_count`), whose
calculation references `raw.users`; the lineage graph therefore holds the
single entry `("raw.users", ["daily_count"])`. -/
def server_fx : ServerState :=
  (define_metric
    (define_metric ⟨[], []⟩ 0 "Raw.Users" "the raw users table" "SELECT 1"
      "@data" "" "").2
    0 "Daily Count" "counts daily rows" "SELECT count(x) FROM raw.users"
    "@data" "" "raw").2

/-- First metric of the similarity scenario: data source `transactions`,
description words disjoint from `m_sim2`'s, tags disjoint as well. -/
def m_sim1 : Metric :=
  { mkMetric "M1" "m1" [] with
    description := "alpha beta", tags := ["x"], data_source := "transactions" }

/-- Second metric of the similarity scenario. -/
def m_sim2 : Metric :=
  { mkMetric "M2" "m2" [] with
    description := "gamma delta", tags := ["y"], data_source := "transactions" }

/-- A change record with the given `changed_at` day and fixed other fields,
for concrete histories. -/
def chg (t : Int) : ChangeRecord :=
  { metric_id := "m", field_name := "f", old_value := "o", new_value := "n",
    changed_by := "u", changed_at := t }

/-! ### Helper lemmas -/

/-- The half-even rounding never rounds below an integer lower bound. -/
theorem le_roundHalfEvenInt {q : ℚ} {n : ℤ} (h : (n : ℚ) ≤ q) :
    n ≤ roundHalfEvenInt q := by
  have hfl : n ≤ ⌊q⌋ := Int.le_floor.mpr h
  unfold roundHalfEvenInt
  split_ifs <;> omega

/-- The half-even rounding never rounds above an integer upper bound. -/
theorem roundHalfEvenInt_le {q : ℚ} {n : ℤ} (h : q ≤ (n : ℚ)) :
    roundHalfEvenInt q ≤ n := by
  have hfl : ⌊q⌋ ≤ n := by
    have h1 := Int.floor_le_floor h
    simpa using h1
  have hq : (⌊q⌋ : ℚ) ≤ q := Int.floor_le q
  unfold roundHalfEvenInt
  split_ifs with h1 h2 h3
  · exact hfl
  · have hlt : (⌊q⌋ : ℚ) < (n : ℚ) := by linarith
    have hn : ⌊q⌋ < n := by exact_mod_cast hlt
    omega
  · exact hfl
  · have h12 : (1 : ℚ)/2 ≤ q - (⌊q⌋ : ℚ) := not_lt.mp h1
    have hlt : (⌊q⌋ : ℚ) < (n : ℚ) := by linarith
    have hn : ⌊q⌋ < n := by exact_mod_cast hlt
    omega

/-- Rounding to one decimal preserves nonnegativity. -/
theorem round1_nonneg {q : ℚ} (h : 0 ≤ q) : 0 ≤ round1 q := by
  unfold round1
  have h0 : ((0 : ℤ) : ℚ) ≤ q * 10 := by push_cast; linarith
  have h1 := le_roundHalfEvenInt h0
  have hc : (0 : ℚ) ≤ (roundHalfEvenInt (q * 10) : ℚ) := by exact_mod_cast h1
  linarith

/-- Rounding to one decimal preserves the upper bound 100. -/
theorem round1_le_100 {q : ℚ} (h : q ≤ 100) : round1 q ≤ 100 := by
  unfold round1
  have h0 : q * 10 ≤ ((1000 : ℤ) : ℚ) := by push_cast; linarith
  have h1 := roundHalfEvenInt_le h0
  have hc : (roundHalfEvenInt (q * 10) : ℚ) ≤ 1000 := by exact_mod_cast h1
  linarith

/-- Translation between the per-entry form of a topological-rank hypothesis
and its `lookupStore` form. -/
theorem rank_of_lookup (store : List (String × Metric)) (rank : String → ℕ)
    (hrank : ∀ p ∈ store, ∀ d ∈ p.2.dependencies,
      (lookupStore store d).isSome → rank d < rank p.1) :
    ∀ id m, lookupStore store id = some m →
      ∀ d ∈ m.dependencies, (lookupStore store d).isSome → rank d < rank id := by
  intro id m hlook d hd hds
  unfold lookupStore at hlook
  obtain ⟨q, hq, hqm⟩ := Option.map_eq_some'.mp hlook
  have hqmem : q ∈ store := List.mem_of_find?_eq_some hq
  have hqid : q.1 = id := by
    have hp := List.find?_some hq
    simpa using hp
  have hqd : d ∈ q.2.dependencies := by rw [hqm]; exact hd
  have hlt := hrank q hqmem d hqd hds
  rwa [hqid] at hlt

/-- On a store admitting a topological rank (every edge into a stored metric
strictly decreases the rank), the depth-first search of
`_has_circular_dependency` never revisits its path and returns `false`,
for every fuel, start node and path-consistent visited set. -/
theorem no_cycle_of_rank (store : List (String × Metric)) (rank : String → ℕ)
    (hrank : ∀ p ∈ store, ∀ d ∈ p.2.dependencies,
      (lookupStore store d).isSome → rank d < rank p.1) :
    ∀ (fuel : ℕ) (id : String) (visited : List String),
      (∀ v ∈ visited, (lookupStore store v).isSome → rank id < rank v) →
      id ∉ visited →
      has_circular_dependency_aux store fuel id visited = false := by
  have hrank' := rank_of_lookup store rank hrank
  intro fuel
  induction fuel with
  | zero => intro id visited _ _; rfl
  | succ fuel ih =>
    intro id visited hinv hmem
    simp only [has_circular_dependency_aux]
    rw [if_neg hmem]
    cases hlook : lookupStore store id with
    | none => rfl
    | some m =>
      rw [List.any_eq_false]
      intro dep hdep
      cases hdl : lookupStore store dep with
      | none => simp [hdl]
      | some md =>
        have hds : (lookupStore store dep).isSome := by rw [hdl]; rfl
        have hlt : rank dep < rank id := hrank' id m hlook dep hdep hds
        have hrec : has_circular_dependency_aux store fuel dep (id :: visited) = false := by
          apply ih
          · intro v hv hvs
            rcases List.mem_cons.mp hv with rfl | hv2
            · exact hlt
            · exact hlt.trans (hinv v hv2 hvs)
          · intro hdmem
            rcases List.mem_cons.mp hdmem with rfl | hd2
            · exact absurd hlt (lt_irrefl _)
            · exact absurd (hlt.trans (hinv dep hd2 hds)) (lt_irrefl _)
        simp [hrec]

/-- Decomposition of `_calculate_similarity` into the sum of its three
weighted signals (description overlap, tag overlap, data-source match). -/
theorem calculate_similarity_eq (m1 m2 : Metric) :
    calculate_similarity m1 m2 =
      (if wordSet m1.description ≠ ∅ ∧ wordSet m2.description ≠ ∅ then
        ((wordSet m1.description ∩ wordSet m2.description).card : ℚ) /
          ((wordSet m1.description ∪ wordSet m2.description).card) * 0.4
      else 0) +
      (if m1.tags.toFinset ≠ ∅ ∨ m2.tags.toFinset ≠ ∅ then
        ((m1.tags.toFinset ∩ m2.tags.toFinset).card : ℚ) /
          ((max ((m1.tags.toFinset ∪ m2.tags.toFinset).card) 1 : ℕ) : ℚ) * 0.3
      else 0) +
      (if m1.data_source = m2.data_source ∧ m1.data_source ≠ "" then (0.3 : ℚ)
      else 0) := by
  unfold calculate_similarity
  dsimp only
  split_ifs <;> ring

/-! ### Claim theorems -/

/-- C1 (code bug): per the spec, the downstream query must return exactly
the metric ids whose dependency set contains the target id (or its display
name) and never a reference the target itself depends on.  In the state
`server_fx` (metric `daily_count` depends on the stored metric
`raw.users`), the downstream scan of `generate_mermaid_diagram` satisfies
this — downstream of `raw.users` is `["daily_count"]` and downstream of
`daily_count` is empty — but the downstream computation of
`visualize_lineage` returns `["raw.users"]` for `daily_count` (its own
upstream dependency, contradicting the code's own "Downstream Dependents"
label) and the empty list for `raw.users`, missing its real dependent. -/
theorem C1_downstream_query_bug :
    (lookupStore server_fx.metricsStore "daily_count").map (·.dependencies) =
      some ["raw.users"] ∧
    server_fx.metricsStore.map (·.1) = ["raw.users", "daily_count"] ∧
    server_fx.lineageGraph = [("raw.users", ["daily_count"])] ∧
    downstream_viz server_fx.lineageGraph "daily_count" = ["raw.users"] ∧
    downstream_viz server_fx.lineageGraph "raw.users" = [] ∧
    downstream_mermaid server_fx.metricsStore "raw.users" = ["daily_count"] ∧
    downstream_mermaid server_fx.metricsStore "daily_count" = [] ∧
    server_fx.metricsStore.all (fun p =>
      !p.2.dependencies.contains "daily_count" &&
      !p.2.dependencies.contains "Daily Count") = true :=
  ⟨by decide, by decide, by decide, by decide, by decide, by decide,
    by decide, by decide⟩

/-- C2 counterexample: for the poor-metric scenario (empty
description/tags/source/owner, no tests or usage, created 200 and updated
100 days ago) the final score is 0, which is below 50, so
`get_recommendations` inserts the "action required" banner at position 0;
the first element of the returned list is therefore the banner, not the
test-coverage critical entry claimed by the spec. -/
theorem C2_poor_metric_counterexample :
    (calculate_trust_score_enhanced 200 m_poor []).recommendations.head? ≠
      some "🔴 CRITICAL: Add validation tests to verify metric accuracy" ∧
    (calculate_trust_score_enhanced 200 m_poor []).recommendations.head? =
      some "⚠️ Action required - Address critical issues before using in production" := by
  norm_num [calculate_trust_score_enhanced, get_recommendations, check_freshness,
    check_test_coverage, check_usage, check_documentation, check_ownership,
    recent_activity_bonus, consistency_bonus, time_decay_penalty, m_poor,
    min_def, max_def]
  decide

/-- C2 (amended): for the poor-metric scenario the enhanced trust score is
below 30 (it is 0) and the recommendation list is non-empty, with the
"action required" banner as its first element and the test-coverage
critical entry immediately after it (first among the non-banner entries). -/
theorem C2_poor_metric_amended :
    (calculate_trust_score_enhanced 200 m_poor []).score < 30 ∧
    (calculate_trust_score_enhanced 200 m_poor []).recommendations ≠ [] ∧
    (calculate_trust_score_enhanced 200 m_poor []).recommendations.head? =
      some "⚠️ Action required - Address critical issues before using in production" ∧
    (calculate_trust_score_enhanced 200 m_poor []).recommendations[1]? =
      some "🔴 CRITICAL: Add validation tests to verify metric accuracy" := by
  norm_num [calculate_trust_score_enhanced, get_recommendations, check_freshness,
    check_test_coverage, check_usage, check_documentation, check_ownership,
    recent_activity_bonus, consistency_bonus, time_decay_penalty, round1,
    roundHalfEvenInt, m_poor, min_def, max_def]
  exact List.cons_ne_nil _ _

/-- C3 counterexample: the claim says a single-element sequence (a
`max = min` case) yields the mid-intensity symbol repeated once per
element, but `generate_sparkline` returns the flat-line symbol `'─'` for
every input of length below 2. -/
theorem C3_sparkline_counterexample :
    generate_sparkline [(75 : ℚ)] = ['─'] ∧
    generate_sparkline [(75 : ℚ)] ≠ List.replicate 1 '▄' := by decide

/-- C3 (amended): an empty or single-element sequence yields the single
flat-line symbol; for two or more elements the sparkline has exactly one
symbol per input element, the uniform mid-intensity symbol when max equals
min and otherwise the glyph at level `floor(((value - min) / (max - min)) * 8)`
clamped to 7. -/
theorem C3_sparkline_amended (scores : List ℚ) :
    (scores.length < 2 → generate_sparkline scores = ['─']) ∧
    (2 ≤ scores.length → (generate_sparkline scores).length = scores.length) ∧
    (2 ≤ scores.length →
      scores.foldl max (scores.headD 0) = scores.foldl min (scores.headD 0) →
      generate_sparkline scores = List.replicate scores.length '▄') ∧
    (2 ≤ scores.length →
      scores.foldl max (scores.headD 0) ≠ scores.foldl min (scores.headD 0) →
      generate_sparkline scores = scores.map (fun score =>
        sparkline_chars.getD
          (min 7 (⌊(score - scores.foldl min (scores.headD 0)) /
            (scores.foldl max (scores.headD 0) - scores.foldl min (scores.headD 0)) *
            8⌋.toNat)) '▁')) := by
  have hcond : 2 ≤ scores.length → ¬(scores = [] ∨ scores.length < 2) := by
    intro h
    rintro (rfl | h2)
    · simp at h
    · omega
  refine ⟨?_, ?_, ?_, ?_⟩
  · intro h
    unfold generate_sparkline
    rw [if_pos (Or.inr h)]
  · intro h
    unfold generate_sparkline
    rw [if_neg (hcond h)]
    dsimp only
    split_ifs
    · simp
    · simp
  · intro h heq
    unfold generate_sparkline
    rw [if_neg (hcond h)]
    dsimp only
    rw [if_pos heq]
  · intro h hne
    unfold generate_sparkline
    rw [if_neg (hcond h)]
    dsimp only
    rw [if_neg hne]

/-- C3 witness: the amended claim evaluated at the flat sequence
`[75, 75, 75]` and the varying sequence `[0, 100, 50]`. -/
theorem C3_sparkline_amended_witness :
    generate_sparkline [(75 : ℚ), 75, 75] = List.replicate 3 '▄' ∧
    generate_sparkline [(0 : ℚ), 100, 50] = [(0 : ℚ), 100, 50].map (fun score =>
      sparkline_chars.getD
        (min 7 (⌊(score - [(0 : ℚ), 100, 50].foldl min ([(0 : ℚ), 100, 50].headD 0)) /
          ([(0 : ℚ), 100, 50].foldl max ([(0 : ℚ), 100, 50].headD 0) -
           [(0 : ℚ), 100, 50].foldl min ([(0 : ℚ), 100, 50].headD 0)) * 8⌋.toNat)) '▁') :=
  ⟨(C3_sparkline_amended _).2.2.1 (by decide) (by decide),
   (C3_sparkline_amended _).2.2.2 (by decide) (by decide)⟩

/-- C4 (confirmed): `_has_circular_dependency` returns `true` started from
a metric depending directly on itself and from every member of the 3-node
cycle `a → b → c → a`; it returns `false` from every start node of a store
admitting a topological rank (the finite-graph characterization of a
directed acyclic dependency graph), and `false` for an id absent from the
metric store. -/
theorem C4_cycle_detection :
    has_circular_dependency storeSelf "a" = true ∧
    (has_circular_dependency storeCycle "a" = true ∧
     has_circular_dependency storeCycle "b" = true ∧
     has_circular_dependency storeCycle "c" = true) ∧
    (∀ (store : List (String × Metric)) (rank : String → ℕ),
      (∀ p ∈ store, ∀ d ∈ p.2.dependencies,
        (lookupStore store d).isSome → rank d < rank p.1) →
      ∀ id, has_circular_dependency store id = false) ∧
    (∀ (store : List (String × Metric)) (id : String),
      lookupStore store id = none → has_circular_dependency store id = false) := by
  refine ⟨by decide, ⟨by decide, by decide, by decide⟩, ?_, ?_⟩
  · intro store rank hrank id
    exact no_cycle_of_rank store rank hrank _ id []
      (by intro v hv; simp at hv) (by simp)
  · intro store id hlook
    show has_circular_dependency_aux store (store.length + 1 + 1) id [] = false
    simp only [has_circular_dependency_aux]
    rw [if_neg (List.not_mem_nil id)]
    rw [hlook]

/-- C4 witness: the acyclic part applied to the 3-node DAG `storeDag` with
the explicit rank `a ↦ 2, b ↦ 1, _ ↦ 0`, and the absent-id part applied to
the id `"zzz"`. -/
theorem C4_cycle_detection_witness :
    has_circular_dependency storeDag "a" = false ∧
    has_circular_dependency storeDag "zzz" = false :=
  ⟨C4_cycle_detection.2.2.1 storeDag
      (fun s => if s = "a" then 2 else if s = "b" then 1 else 0)
      (by decide) "a",
   C4_cycle_detection.2.2.2 storeDag "zzz" (by decide)⟩

/-- C5 (confirmed): the time-decay penalty of
`calculate_trust_score_enhanced` is applied (as the negated `time_decay`
multiplier) exactly when the metric age exceeds 90 days and the staleness
exceeds 30 days; when applied it equals `min(25, (staleness / 30) * 5)` and
is strictly positive, otherwise the multiplier is 0; the final score
subtracts exactly this penalty before clamping and rounding. -/
theorem C5_time_decay (now : Int) (metric : Metric) (history : List ChangeRecord) :
    (calculate_trust_score_enhanced now metric history).multipliers.time_decay
      = -time_decay_penalty (now - metric.created_at) (now - metric.updated_at) ∧
    (now - metric.created_at > 90 ∧ now - metric.updated_at > 30 →
      time_decay_penalty (now - metric.created_at) (now - metric.updated_at)
        = min 25 (((now - metric.updated_at : Int) : ℚ) / 30 * 5) ∧
      0 < time_decay_penalty (now - metric.created_at) (now - metric.updated_at)) ∧
    (¬(now - metric.created_at > 90 ∧ now - metric.updated_at > 30) →
      time_decay_penalty (now - metric.created_at) (now - metric.updated_at) = 0) ∧
    (calculate_trust_score_enhanced now metric history).score =
      round1 (max 0 (min 100 (
        check_freshness now metric * (15/20) + check_test_coverage metric * (35/25) +
        check_usage metric * 1 + check_documentation metric * (15/20) +
        check_ownership metric * 1 +
        recent_activity_bonus (now - metric.updated_at) + consistency_bonus history -
        time_decay_penalty (now - metric.created_at) (now - metric.updated_at)))) := by
  refine ⟨rfl, ?_, ?_, rfl⟩
  · intro h
    have hpos : (0 : ℚ) < ((now - metric.updated_at : Int) : ℚ) / 30 * 5 := by
      have h30 : (30 : ℚ) < ((now - metric.updated_at : Int) : ℚ) := by
        exact_mod_cast h.2
      have hd : (0 : ℚ) < ((now - metric.updated_at : Int) : ℚ) / 30 := by positivity
      linarith
    unfold time_decay_penalty
    rw [if_pos h]
    exact ⟨rfl, lt_min (by norm_num) hpos⟩
  · intro h
    unfold time_decay_penalty
    rw [if_neg h]

/-- C5 witness: the decay branch at `now = 200` on the poor metric (age
200 > 90, staleness 100 > 30). -/
theorem C5_time_decay_witness :
    time_decay_penalty (200 - m_poor.created_at) (200 - m_poor.updated_at)
      = min 25 (((200 - m_poor.updated_at : Int) : ℚ) / 30 * 5) ∧
    0 < time_decay_penalty (200 - m_poor.created_at) (200 - m_poor.updated_at) :=
  (C5_time_decay 200 m_poor []).2.1 ⟨by decide, by decide⟩

/-- C6 (confirmed): for every metric, history and evaluation time, the
final enhanced trust score lies in [0, 100] and equals the clamp to
[0, 100] of base score plus recent-activity and consistency bonuses minus
the decay penalty, rounded to one decimal. -/
theorem C6_score_clamped (now : Int) (metric : Metric) (history : List ChangeRecord) :
    0 ≤ (calculate_trust_score_enhanced now metric history).score ∧
    (calculate_trust_score_enhanced now metric history).score ≤ 100 ∧
    (calculate_trust_score_enhanced now metric history).score =
      round1 (max 0 (min 100 (
        check_freshness now metric * (15/20) + check_test_coverage metric * (35/25) +
        check_usage metric * 1 + check_documentation metric * (15/20) +
        check_ownership metric * 1 +
        recent_activity_bonus (now - metric.updated_at) + consistency_bonus history -
        time_decay_penalty (now - metric.created_at) (now - metric.updated_at)))) := by
  refine ⟨?_, ?_, rfl⟩
  · exact round1_nonneg (le_max_left _ _)
  · exact round1_le_100 (max_le (by norm_num) (min_le_left _ _))

/-- C7 (confirmed): `calculate_trend` yields stable (`"→"`) for fewer than
two records; with at least two, improving (`"↗️"`) holds exactly when the
count of records at most 30 days old exceeds the count in the 30-to-60-day
window by more than 2, degrading (`"↘️"`) exactly when it falls short by
more than 2, and stable exactly otherwise. -/
theorem C7_trend (now : Int) (history : List ChangeRecord) :
    (history.length < 2 → calculate_trend now history = "→") ∧
    (2 ≤ history.length →
      ((calculate_trend now history = "↗️" ↔
        ((history.filter (fun h => 30 < now - h.changed_at ∧ now - h.changed_at ≤ 60)).length : Int) + 2 <
        ((history.filter (fun h => now - h.changed_at ≤ 30)).length : Int)) ∧
       (calculate_trend now history = "↘️" ↔
        ((history.filter (fun h => now - h.changed_at ≤ 30)).length : Int) <
        ((history.filter (fun h => 30 < now - h.changed_at ∧ now - h.changed_at ≤ 60)).length : Int) - 2) ∧
       (calculate_trend now history = "→" ↔
        (¬(((history.filter (fun h => 30 < now - h.changed_at ∧ now - h.changed_at ≤ 60)).length : Int) + 2 <
           ((history.filter (fun h => now - h.changed_at ≤ 30)).length : Int)) ∧
         ¬(((history.filter (fun h => now - h.changed_at ≤ 30)).length : Int) <
           ((history.filter (fun h => 30 < now - h.changed_at ∧ now - h.changed_at ≤ 60)).length : Int) - 2))))) := by
  have d1 : ("↗️" : String) ≠ "→" := by decide
  have d2 : ("↗️" : String) ≠ "↘️" := by decide
  have d3 : ("↘️" : String) ≠ "→" := by decide
  constructor
  · intro hlen
    unfold calculate_trend
    rw [if_pos (Or.inr hlen)]
  · intro hlen
    have hcond : ¬(history = [] ∨ history.length < 2) := by
      rintro (rfl | h)
      · simp at hlen
      · omega
    unfold calculate_trend
    rw [if_neg hcond]
    dsimp only
    split_ifs with h1 h2
    · exact ⟨iff_of_true rfl (by exact_mod_cast h1),
        iff_of_false d2 (by omega),
        iff_of_false d1 (fun hc => hc.1 (by exact_mod_cast h1))⟩
    · exact ⟨iff_of_false (Ne.symm d2) (by omega),
        iff_of_true rfl (by exact_mod_cast h2),
        iff_of_false d3 (fun hc => hc.2 (by exact_mod_cast h2))⟩
    · exact ⟨iff_of_false (Ne.symm d1) (by exact_mod_cast h1),
        iff_of_false (Ne.symm d3) (by exact_mod_cast h2),
        iff_of_true rfl ⟨by exact_mod_cast h1, by exact_mod_cast h2⟩⟩

/-- C7 witness: a history of 10 changes within the last 30 days and none in
the 30-to-60-day window, evaluated at `now = 0`, is classified improving. -/
theorem C7_trend_witness :
    calculate_trend 0 [chg 0, chg (-1), chg (-2), chg (-3), chg (-4),
      chg (-5), chg (-6), chg (-7), chg (-8), chg (-9)] = "↗️" :=
  (((C7_trend 0 [chg 0, chg (-1), chg (-2), chg (-3), chg (-4),
      chg (-5), chg (-6), chg (-7), chg (-8), chg (-9)]).2
    (by decide)).1).mpr (by decide)

set_option maxHeartbeats 1000000 in
/-- C8 (confirmed): the similarity of two metrics lies in [0, 1] and equals
0.4 times the Jaccard overlap of the lower-cased description word sets (0
when either is empty) plus 0.3 times the Jaccard overlap of the tag sets (0
when both are empty) plus 0.3 exactly when both data sources are equal and
non-empty; metrics with identical non-empty data source, disjoint non-empty
description word sets and disjoint tag sets score exactly 0.3. -/
theorem C8_similarity (m1 m2 : Metric) :
    0 ≤ calculate_similarity m1 m2 ∧ calculate_similarity m1 m2 ≤ 1 ∧
    calculate_similarity m1 m2 =
      (if wordSet m1.description ≠ ∅ ∧ wordSet m2.description ≠ ∅ then
        ((wordSet m1.description ∩ wordSet m2.description).card : ℚ) /
          ((wordSet m1.description ∪ wordSet m2.description).card) * 0.4
      else 0) +
      (if m1.tags.toFinset ≠ ∅ ∨ m2.tags.toFinset ≠ ∅ then
        ((m1.tags.toFinset ∩ m2.tags.toFinset).card : ℚ) /
          ((max ((m1.tags.toFinset ∪ m2.tags.toFinset).card) 1 : ℕ) : ℚ) * 0.3
      else 0) +
      (if m1.data_source = m2.data_source ∧ m1.data_source ≠ "" then (0.3 : ℚ)
      else 0) ∧
    (m1.data_source = m2.data_source → m1.data_source ≠ "" →
      wordSet m1.description ≠ ∅ → wordSet m2.description ≠ ∅ →
      wordSet m1.description ∩ wordSet m2.description = ∅ →
      m1.tags.toFinset ∩ m2.tags.toFinset = ∅ →
      calculate_similarity m1 m2 = 0.3) := by
  have heq := calculate_similarity_eq m1 m2
  set A := (if wordSet m1.description ≠ ∅ ∧ wordSet m2.description ≠ ∅ then
        ((wordSet m1.description ∩ wordSet m2.description).card : ℚ) /
          ((wordSet m1.description ∪ wordSet m2.description).card) * 0.4
      else 0) with hA
  set B := (if m1.tags.toFinset ≠ ∅ ∨ m2.tags.toFinset ≠ ∅ then
        ((m1.tags.toFinset ∩ m2.tags.toFinset).card : ℚ) /
          ((max ((m1.tags.toFinset ∪ m2.tags.toFinset).card) 1 : ℕ) : ℚ) * 0.3
      else 0) with hB
  set C := (if m1.data_source = m2.data_source ∧ m1.data_source ≠ "" then (0.3 : ℚ)
      else 0) with hC
  have hA0 : 0 ≤ A := by
    rw [hA]; split_ifs
    · positivity
    · exact le_refl 0
  have hA4 : A ≤ 0.4 := by
    rw [hA]; split_ifs with h
    · have hsub : wordSet m1.description ∩ wordSet m2.description ⊆
          wordSet m1.description ∪ wordSet m2.description :=
        Finset.inter_subset_left.trans Finset.subset_union_left
      have hcard := Finset.card_le_card hsub
      have hq : ((wordSet m1.description ∩ wordSet m2.description).card : ℚ) ≤
          ((wordSet m1.description ∪ wordSet m2.description).card : ℚ) := by
        exact_mod_cast hcard
      have hdiv : ((wordSet m1.description ∩ wordSet m2.description).card : ℚ) /
          ((wordSet m1.description ∪ wordSet m2.description).card : ℚ) ≤ 1 :=
        div_le_one_of_le₀ hq (by positivity)
      linarith [mul_le_mul_of_nonneg_right hdiv (show (0:ℚ) ≤ 0.4 by norm_num)]
    · norm_num
  have hB0 : 0 ≤ B := by
    rw [hB]; split_ifs
    · positivity
    · exact le_refl 0
  have hB3 : B ≤ 0.3 := by
    rw [hB]; split_ifs with h
    · have hsub : m1.tags.toFinset ∩ m2.tags.toFinset ⊆
          m1.tags.toFinset ∪ m2.tags.toFinset :=
        Finset.inter_subset_left.trans Finset.subset_union_left
      have hcard := (Finset.card_le_card hsub).trans
        (le_max_left (m1.tags.toFinset ∪ m2.tags.toFinset).card 1)
      have hq : ((m1.tags.toFinset ∩ m2.tags.toFinset).card : ℚ) ≤
          ((max ((m1.tags.toFinset ∪ m2.tags.toFinset).card) 1 : ℕ) : ℚ) := by
        exact_mod_cast hcard
      have hdiv : ((m1.tags.toFinset ∩ m2.tags.toFinset).card : ℚ) /
          ((max ((m1.tags.toFinset ∪ m2.tags.toFinset).card) 1 : ℕ) : ℚ) ≤ 1 :=
        div_le_one_of_le₀ hq (by positivity)
      linarith [mul_le_mul_of_nonneg_right hdiv (show (0:ℚ) ≤ 0.3 by norm_num)]
    · norm_num
  have hC0 : 0 ≤ C := by rw [hC]; split_ifs <;> norm_num
  have hC3 : C ≤ 0.3 := by rw [hC]; split_ifs <;> norm_num
  refine ⟨?_, ?_, heq, ?_⟩
  · rw [heq]; linarith
  · rw [heq]; linarith
  · intro h1 h2 h3 h4 h5 h6
    have hAz : A = 0 := by
      rw [hA, if_pos ⟨h3, h4⟩, h5]
      simp
    have hBz : B = 0 := by
      rw [hB]; split_ifs with h
      · rw [h6]; simp
      · rfl
    have hCv : C = 0.3 := by rw [hC, if_pos ⟨h1, h2⟩]
    rw [heq, hAz, hBz, hCv]; norm_num

/-- C8 witness: the duplicate-scenario part applied to two metrics sharing
the data source `transactions` with disjoint descriptions and tags. -/
theorem C8_similarity_witness : calculate_similarity m_sim1 m_sim2 = 0.3 :=
  (C8_similarity m_sim1 m_sim2).2.2.2 rfl (by decide) (by decide) (by decide)
    (by decide) (by decide)

/-- C9 (confirmed): the consistency bonus is 5 exactly when the history has
at least 5 records and every day-gap between consecutive `changed_at`
values among the 10 most recent records is at most 30 days, and 0
otherwise. -/
theorem C9_consistency_bonus (history : List ChangeRecord) :
    (consistency_bonus history = 5 ↔
      (5 ≤ history.length ∧
        (gaps ((history.take 10).map (·.changed_at))).all (fun g => g ≤ 30) = true)) ∧
    (¬(5 ≤ history.length ∧
        (gaps ((history.take 10).map (·.changed_at))).all (fun g => g ≤ 30) = true) →
      consistency_bonus history = 0) := by
  simp only [consistency_bonus]
  by_cases h5 : 5 ≤ history.length
  · have hne : history ≠ [] := by
      intro h
      rw [h] at h5
      simp at h5
    rw [if_pos ⟨hne, h5⟩]
    have hlen : ((history.take 10).map (·.changed_at)).length > 1 := by
      simp [List.length_take]
      omega
    rw [if_pos hlen]
    by_cases hall : (gaps ((history.take 10).map (·.changed_at))).all
        (fun g => g ≤ 30) = true
    · rw [if_pos hall]
      exact ⟨iff_of_true rfl ⟨h5, hall⟩, fun hn => absurd ⟨h5, hall⟩ hn⟩
    · rw [if_neg hall]
      exact ⟨iff_of_false (by norm_num) (fun hc => hall hc.2), fun _ => rfl⟩
  · have hcond : ¬(history ≠ [] ∧ history.length ≥ 5) := fun hc => h5 hc.2
    rw [if_neg hcond]
    exact ⟨iff_of_false (by norm_num) (fun hc => h5 hc.1), fun _ => rfl⟩

/-- C9 witness: five records spaced 10 days apart (most-recent-first) earn
the bonus. -/
theorem C9_consistency_bonus_witness :
    consistency_bonus [chg 100, chg 90, chg 80, chg 70, chg 60] = 5 :=
  (C9_consistency_bonus [chg 100, chg 90, chg 80, chg 70, chg 60]).1.mpr
    ⟨by decide, by decide⟩

/-- C10 (confirmed): re-creating a metric whose derived id already exists
is rejected — `define_metric` returns a non-created outcome and leaves the
whole server state (in particular the stored record under that id)
unchanged, and `MetricsDatabase.create_metric` returns `False` with the
metrics table unchanged. -/
theorem C10_duplicate_rejected :
    (∀ (st : ServerState) (now : Int)
        (name description calculation owner tags data_source : String),
      (lookupStore st.metricsStore (metric_id_of name)).isSome →
      (define_metric st now name description calculation owner tags data_source).2 = st ∧
      (define_metric st now name description calculation owner tags data_source).1 ≠
        DefineResult.created ∧
      lookupStore (define_metric st now name description calculation owner tags
          data_source).2.metricsStore (metric_id_of name) =
        lookupStore st.metricsStore (metric_id_of name)) ∧
    (∀ (db : List (String × Metric)) (metric_id : String) (metric_data : Metric),
      (lookupStore db metric_id).isSome →
      create_metric db metric_id metric_data = (false, db)) := by
  constructor
  · intro st now name description calculation owner tags data_source hex
    unfold define_metric
    dsimp only
    split_ifs with h1
    · exact ⟨rfl, fun h => DefineResult.noConfusion h, rfl⟩
    · exact ⟨rfl, fun h => DefineResult.noConfusion h, rfl⟩
  · intro db metric_id metric_data hex
    unfold create_metric
    rw [if_pos hex]

/-- C10 witness: re-defining `"Daily Count"` (id `daily_count`, already in
`server_fx`) is rejected and leaves the state unchanged, and the database
insert of an existing id returns `false` with the table unchanged. -/
theorem C10_duplicate_rejected_witness :
    (define_metric server_fx 5 "Daily Count" "second copy" "SELECT 2" "" "" "").2 =
      server_fx ∧
    (define_metric server_fx 5 "Daily Count" "second copy" "SELECT 2" "" "" "").1 ≠
      DefineResult.created ∧
    create_metric server_fx.metricsStore "daily_count" m_poor =
      (false, server_fx.metricsStore) := by
  have h := C10_duplicate_rejected.1 server_fx 5 "Daily Count" "second copy"
    "SELECT 2" "" "" "" (by decide)
  exact ⟨h.1, h.2.1,
    C10_duplicate_rejected.2 server_fx.metricsStore "daily_count" m_poor (by decide)⟩

end SemanticMetrics
